import Mathlib

/-!
Shallow embedding of the generation request pipeline of
`src/services/geminiService.ts` (functions `generateCompositeImage` and
`editGeneratedImage`) together with the caller-side prompt defaulting of
`src/App.tsx` (`handleGenerate`).  The remote endpoint is modelled by a
stub function from the request and the attempt index to the remote
outcome (the retry loop re-sends the identical request on every attempt,
so the attempt index is the only varying datum).  JS strings are Lean
`String`s, absent/undefined values are `Option`, thrown JS errors are a
`GenError` record, and the `async` control flow collapses to a pure
function that also records how many remote calls were made and which
backoff delays were awaited.
-/

namespace VirtualStudio

/-- JS `s.includes(pat)`: case-sensitive substring containment. -/
def strIncludes (s pat : String) : Bool :=
  decide (pat.toList <:+: s.toList)

/-- JS `s.trim()`: strip leading and trailing whitespace from both ends,
modelled over the character list. -/
def jsTrim (s : String) : String :=
  ⟨((s.toList.dropWhile Char.isWhitespace).reverse.dropWhile Char.isWhitespace).reverse⟩

/-- JS `a || b` on string-or-undefined values: `a` wins unless it is
absent or the empty string (the only falsy string). -/
def jsOrString (a b : Option String) : Option String :=
  match a with
  | some s => if s = "" then b else some s
  | none => b

/-- A content part of a request or response: either a text fragment or
inline (base64) image data tagged with a media type, as in the SDK `Part`. -/
inductive Part where
  | text (s : String)
  | inlineData (data : String) (mimeType : String)
deriving DecidableEq

/-- A thrown JS error as observed by the retry loop: optional numeric
`status` and `code` fields plus a `message` string. -/
structure GenError where
  status : Option Nat
  code : Option Nat
  message : String
deriving DecidableEq

/-- The `content` object of a response candidate; its `parts` field may be
absent. -/
structure Content where
  parts : Option (List Part)
deriving DecidableEq

/-- A response candidate wrapping a content object. -/
structure Candidate where
  content : Content
deriving DecidableEq

/-- A remote response: an optional list of candidates. -/
structure GenResponse where
  candidates : Option (List Candidate)
deriving DecidableEq

/-- The `imageConfig` block: output size tier and aspect ratio string
(source field name: aspectRatio). -/
structure ImageConfig where
  imageSize : String
  aspect : String
deriving DecidableEq

/-- One assembled remote request: model name, ordered parts, optional
system instruction, and image configuration. -/
structure GenRequest where
  model : String
  parts : List Part
  systemInstruction : Option String
  imageConfig : ImageConfig
deriving DecidableEq

instance : DecidableEq (Except GenError String) := fun a b =>
  match a, b with
  | .ok x, .ok y => if h : x = y then isTrue (by rw [h]) else isFalse (by simp [h])
  | .error x, .error y => if h : x = y then isTrue (by rw [h]) else isFalse (by simp [h])
  | .ok _, .error _ => isFalse (by simp)
  | .error _, .ok _ => isFalse (by simp)

/-- Outcome of one whole invocation: the returned data URI or the thrown
error, together with the number of remote calls made and the backoff
delays (in milliseconds, in order) awaited between attempts. -/
structure InvokeResult where
  result : Except GenError String
  calls : Nat
  delaysMs : List Nat
deriving DecidableEq

/-- Failure classification of geminiService.ts lines 108-113 and 186-191:
retryable iff status or code is 503 or 500, or the (truthy) message
contains the substring "overloaded" or "Internal error". -/
def isRetryable (e : GenError) : Bool :=
  (e.status == some 503) || (e.code == some 503) ||
  (e.status == some 500) || (e.code == some 500) ||
  (!(e.message == "") &&
    (strIncludes e.message "overloaded" || strIncludes e.message "Internal error"))

/-- The scan of lines 94-98 / 175-179: first part whose `inlineData.data`
is truthy (a part with absent inline data or an empty data string is
skipped). -/
def firstInlineData : List Part → Option String
  | [] => none
  | Part.inlineData d _ :: rest => if d = "" then firstInlineData rest else some d
  | Part.text _ :: rest => firstInlineData rest

/-- Outcome of the `try` body for one attempt (lines 79-101 / 162-182),
given what the remote call produced.  A remote error propagates to the
`catch`.  On a response, the guard
`response.candidates && response.candidates[0].content.parts` is
evaluated: an absent candidates field or absent parts field falls through
to the no-image `throw`; an empty candidates array makes
`response.candidates[0].content` a TypeError on undefined; otherwise the
parts are scanned and the first truthy inline data is returned wrapped as
`data:image/png;base64,`; if none is found the no-image error (whose
message `noImageMsg` differs between the two exported functions) is
thrown. -/
def attemptOutcome (noImageMsg : String) (r : Except GenError GenResponse) :
    Except GenError String :=
  match r with
  | .error e => .error e
  | .ok resp =>
    match resp.candidates with
    | none => .error ⟨none, none, noImageMsg⟩
    | some [] =>
        .error ⟨none, none,
          "Cannot read properties of undefined (reading \x27content\x27)"⟩
    | some (c :: _) =>
      match c.content.parts with
      | none => .error ⟨none, none, noImageMsg⟩
      | some ps =>
        match firstInlineData ps with
        | some d => .ok ("data:image/png;base64," ++ d)
        | none => .error ⟨none, none, noImageMsg⟩

/-- The retry loop of lines 74-128 / 156-201, with `step a` the outcome of
the attempt body at 0-based attempt index `a`.  The second argument is the
remaining fuel `maxRetries - attempt`; the loop body always exits by
return or throw except in the retryable non-final case, where the attempt
index increases, so this structural recursion is exact.  On success the
attempt returns (one call, no delay); on a failure that is retryable while
further attempts remain (`attempt < maxRetries - 1`, i.e. remaining fuel
after this attempt is nonzero) the loop waits `2^(attempt+1) * 1000` ms
and continues; otherwise the error is rethrown.  The fuel-0 case is the
`throw lastError` after the loop, reachable only when `maxRetries = 0`,
where `lastError` is still undefined (modelled as an empty error). -/
def retryFrom (step : Nat → Except GenError String) : Nat → Nat → InvokeResult
  | _, 0 => { result := .error ⟨none, none, ""⟩, calls := 0, delaysMs := [] }
  | attempt, k + 1 =>
    match step attempt with
    | .ok img => { result := .ok img, calls := 1, delaysMs := [] }
    | .error e =>
      if isRetryable e && k != 0 then
        let rest := retryFrom step (attempt + 1) k
        { result := rest.result, calls := rest.calls + 1,
          delaysMs := 2 ^ (attempt + 1) * 1000 :: rest.delaysMs }
      else
        { result := .error e, calls := 1, delaysMs := [] }

/-- The `systemInstruction` template literal of lines 33-52 (apostrophes
written as \x27 escapes). -/
def systemInstructionText : String :=
  String.intercalate "\n"
    [ "",
      "    ROLE:",
      "    You are an advanced AI Image Compositor specialized in e-commerce product placement. Your PRIMARY OBJECTIVE is \"Pixel-Perfect Product Transfer\".",
      "",
      "    CRITICAL RULES FOR PRODUCT FIDELITY (SOURCE OF TRUTH):",
      "    1. **Immutable Product Identity**: The \x27Product Reference\x27 image is SACRED. You must composite it onto the model WITHOUT altering its internal design details.",
      "    2. **Text & Logo Preservation (Zero Hallucination)**: ",
      "       - Treat all text, labels, and logos on the product as strictly READ-ONLY. ",
      "       - Perform a mental \"Copy and Paste\" of the logos/text. ",
      "       - DO NOT blur, warp, misspell, or \"re-imagine\" any text. If the label says \"BRAND\", it must appear exactly as \"BRAND\" in high definition.",
      "    3. **Material & Texture**: Preserve the exact fabric weave, material finish (matte/glossy), and color hex code of the product.",
      "    ",
      "    COMPOSITION RULES:",
      "    1. **Model Adaptation**: The model (person) must adapt their pose and body shape to fit the product. Do NOT warp the product unnaturally to fit the model.",
      "    2. **Lighting Integration**: Apply realistic lighting and shadows *around* the product to make it look worn, but ensure the product itself remains the focal point with high clarity.",
      "    3. **Resolution**: Output at maximum sharpness. Focus specifically on the product area to ensure it is not pixelated.",
      "",
      "    TASK:",
      "    Generate a photorealistic image of the \x27Model Reference\x27 wearing the \x27Product Reference\x27 according to the \x27User Instructions\x27, while maintaining 100% fidelity to the product\x27s original design and text.",
      "  " ]

/-- The fixed tail appended to the user instruction in the trailing
command text of the composite request (line 70). -/
def fidelitySuffix : String := " --ensure product text is legible and exact."

/-- The ordered parts of the composite request (lines 55-71). -/
def compositeParts (modelImageBase64 modelMimeType productImageBase64
    productMimeType userPrompt : String) : List Part :=
  [ Part.text "Model Reference (Target Person):",
    Part.inlineData modelImageBase64 modelMimeType,
    Part.text "Product Reference (DO NOT ALTER TEXT OR LOGOS):",
    Part.inlineData productImageBase64 productMimeType,
    Part.text ("Composition Instructions: " ++ userPrompt ++ fidelitySuffix) ]

/-- The request sent by every attempt of `generateCompositeImage`
(lines 79-90): model name, the composite parts, the system instruction,
and the 2K image configuration with the given aspect ratio. -/
def compositeRequest (modelImageBase64 modelMimeType productImageBase64
    productMimeType userPrompt aspect : String) : GenRequest :=
  { model := "gemini-3-pro-image-preview",
    parts := compositeParts modelImageBase64 modelMimeType productImageBase64
      productMimeType userPrompt,
    systemInstruction := some systemInstructionText,
    imageConfig := { imageSize := "2K", aspect := aspect } }

/-- The missing-key error message of line 26. -/
def missingKeyMsgComposite : String := "API Key is missing. Please provide an API key."

/-- The no-image error message of line 101. -/
def noImageMsgComposite : String := "No image data found in the response."

/-- `generateCompositeImage` (lines 11-129).  `apiKey` is the optional
explicit argument, `envKey` models `process.env.API_KEY`, and `remote`
stubs `ai.models.generateContent`.  The key is resolved by
`apiKey || process.env.API_KEY` then optional-chained `trim`; a missing or
empty resolved key throws before any remote call; otherwise the retry
loop runs with `maxRetries = 5` from attempt 0. -/
def generateCompositeImage (modelImageBase64 modelMimeType productImageBase64
    productMimeType userPrompt aspect : String) (apiKey envKey : Option String)
    (remote : GenRequest → Nat → Except GenError GenResponse) : InvokeResult :=
  let rawKey := jsOrString apiKey envKey
  let key := Option.map jsTrim rawKey
  match key with
  | none =>
      { result := .error ⟨none, none, missingKeyMsgComposite⟩, calls := 0, delaysMs := [] }
  | some k =>
    if k = "" then
      { result := .error ⟨none, none, missingKeyMsgComposite⟩, calls := 0, delaysMs := [] }
    else
      retryFrom
        (fun a => attemptOutcome noImageMsgComposite
          (remote (compositeRequest modelImageBase64 modelMimeType
            productImageBase64 productMimeType userPrompt aspect) a))
        0 5

/-- The ordered parts of the edit request (lines 146-154): the input image
tagged `image/png` unconditionally, then the edit instruction text. -/
def editParts (imageBase64 prompt : String) : List Part :=
  [ Part.inlineData imageBase64 "image/png",
    Part.text ("Edit instruction (Maintain high resolution and text clarity): " ++ prompt) ]

/-- The request sent by every attempt of `editGeneratedImage`
(lines 162-172): model name, the edit parts, no system instruction, and
the 2K image configuration with the given aspect ratio. -/
def editRequest (imageBase64 prompt aspect : String) : GenRequest :=
  { model := "gemini-3-pro-image-preview",
    parts := editParts imageBase64 prompt,
    systemInstruction := none,
    imageConfig := { imageSize := "2K", aspect := aspect } }

/-- The missing-key error message of line 141. -/
def missingKeyMsgEdit : String := "API Key is missing."

/-- The no-image error message of line 182. -/
def noImageMsgEdit : String := "No image generated during edit."

/-- `editGeneratedImage` (lines 131-202), modelled exactly like
`generateCompositeImage` but with the edit request, no system
instruction, and its own error messages. -/
def editGeneratedImage (imageBase64 prompt aspect : String)
    (apiKey envKey : Option String)
    (remote : GenRequest → Nat → Except GenError GenResponse) : InvokeResult :=
  let rawKey := jsOrString apiKey envKey
  let key := Option.map jsTrim rawKey
  match key with
  | none =>
      { result := .error ⟨none, none, missingKeyMsgEdit⟩, calls := 0, delaysMs := [] }
  | some k =>
    if k = "" then
      { result := .error ⟨none, none, missingKeyMsgEdit⟩, calls := 0, delaysMs := [] }
    else
      retryFrom
        (fun a => attemptOutcome noImageMsgEdit
          (remote (editRequest imageBase64 prompt aspect) a))
        0 5

/-- App.tsx `handleGenerate` line 135: the prompt actually passed to
`generateCompositeImage` is `prompt.trim() || <default>`, so a
whitespace-only prompt is replaced by the default studio instruction at
the caller, not in the request builder. -/
def finalPrompt (prompt : String) : String :=
  if jsTrim prompt = "" then
    "Model wearing the product naturally in a professional studio setting."
  else jsTrim prompt

end VirtualStudio

namespace VirtualStudio

/-! Helper lemmas about the embedded definitions, shared by the claim
theorems below. -/

theorem jsTrim_nil : jsTrim "" = "" := by decide

theorem ne_nil_of_jsTrim_ne_nil {s : String} (h : jsTrim s ≠ "") : s ≠ "" := by
  intro hs
  subst hs
  exact h jsTrim_nil

theorem strIncludes_append (a b c : String) : strIncludes (a ++ b ++ c) b = true := by
  unfold strIncludes
  rw [decide_eq_true_eq]
  refine ⟨a.toList, c.toList, ?_⟩
  simp

theorem strIncludes_append_right (a b : String) : strIncludes (a ++ b) b = true := by
  unfold strIncludes
  rw [decide_eq_true_eq]
  refine ⟨a.toList, [], ?_⟩
  simp

theorem retryFrom_ok (step : Nat → Except GenError String) (a k : Nat) (img : String)
    (h : step a = .ok img) : retryFrom step a (k + 1) = ⟨.ok img, 1, []⟩ := by
  simp [retryFrom, h]

theorem retryFrom_stop (step : Nat → Except GenError String) (a k : Nat) (e : GenError)
    (h : step a = .error e) (hnr : isRetryable e = false) :
    retryFrom step a (k + 1) = ⟨.error e, 1, []⟩ := by
  simp [retryFrom, h, hnr]

theorem retryFrom_retry (step : Nat → Except GenError String) (a k : Nat) (e : GenError)
    (h : step a = .error e) (hr : isRetryable e = true) (hk : k ≠ 0) :
    retryFrom step a (k + 1) =
      ⟨(retryFrom step (a + 1) k).result, (retryFrom step (a + 1) k).calls + 1,
        2 ^ (a + 1) * 1000 :: (retryFrom step (a + 1) k).delaysMs⟩ := by
  simp [retryFrom, h, hr, hk]

theorem retryFrom_calls_pos (step : Nat → Except GenError String) (a k : Nat) :
    0 < (retryFrom step a (k + 1)).calls := by
  rw [retryFrom]
  cases hs : step a with
  | ok img => simp
  | error e =>
    by_cases hc : isRetryable e && k != 0 <;> simp [hc]

theorem retryFrom_calls_le (step : Nat → Except GenError String) :
    ∀ k a, (retryFrom step a k).calls ≤ k := by
  intro k
  induction k with
  | zero => intro a; simp [retryFrom]
  | succ k ih =>
    intro a
    rw [retryFrom]
    cases hs : step a with
    | ok img => simp
    | error e =>
      by_cases hc : isRetryable e && k != 0
      · simp only [hc, if_true]
        have := ih (a + 1)
        simp
        omega
      · simp [hc]

theorem retryFrom_allFail (step : Nat → Except GenError String) (err : Nat → GenError)
    (hs : ∀ a, step a = .error (err a)) (hr : ∀ a, isRetryable (err a) = true) :
    ∀ k a, (retryFrom step a (k + 1)).calls = k + 1 ∧
      (retryFrom step a (k + 1)).result = .error (err (a + k)) := by
  intro k
  induction k with
  | zero => intro a; simp [retryFrom, hs a, hr a]
  | succ k ih =>
    intro a
    rw [retryFrom]
    simp only [hs a, hr a]
    have hk : (k + 1) != 0 := by simp
    simp only [hk, Bool.and_true, if_true]
    have h1 := (ih (a + 1)).1
    have h2 := (ih (a + 1)).2
    refine ⟨by simp [h1], ?_⟩
    simp only [h2]
    have h3 : a + 1 + k = a + (k + 1) := by omega
    rw [h3]

theorem generateCompositeImage_run (mb mm pb pm up ar key : String)
    (envKey : Option String) (remote : GenRequest → Nat → Except GenError GenResponse)
    (hkey : jsTrim key ≠ "") :
    generateCompositeImage mb mm pb pm up ar (some key) envKey remote =
      retryFrom (fun a => attemptOutcome noImageMsgComposite
        (remote (compositeRequest mb mm pb pm up ar) a)) 0 5 := by
  have hk0 : key ≠ "" := ne_nil_of_jsTrim_ne_nil hkey
  simp [generateCompositeImage, jsOrString, hk0, hkey]

theorem editGeneratedImage_run (ib pr ar key : String)
    (envKey : Option String) (remote : GenRequest → Nat → Except GenError GenResponse)
    (hkey : jsTrim key ≠ "") :
    editGeneratedImage ib pr ar (some key) envKey remote =
      retryFrom (fun a => attemptOutcome noImageMsgEdit
        (remote (editRequest ib pr ar) a)) 0 5 := by
  have hk0 : key ≠ "" := ne_nil_of_jsTrim_ne_nil hkey
  simp [editGeneratedImage, jsOrString, hk0, hkey]

theorem firstInlineData_append (pre rest : List Part) (d m : String)
    (hpre : ∀ p ∈ pre, ∀ d' m', p = Part.inlineData d' m' → d' = "")
    (hd : d ≠ "") :
    firstInlineData (pre ++ Part.inlineData d m :: rest) = some d := by
  induction pre with
  | nil => simp [firstInlineData, hd]
  | cons p ps ih =>
    have hps : ∀ q ∈ ps, ∀ d' m', q = Part.inlineData d' m' → d' = "" :=
      fun q hq => hpre q (List.mem_cons_of_mem p hq)
    cases p with
    | text s => simpa [firstInlineData] using ih hps
    | inlineData d' m' =>
      have hd' : d' = "" := hpre _ (List.mem_cons_self _ _) d' m' rfl
      subst hd'
      simpa [firstInlineData] using ih hps

end VirtualStudio

namespace VirtualStudio

/-- C2: a failure observed during an attempt is classified retryable iff
its status or code equals 500 or 503 or its message contains the
case-sensitive substring "overloaded" or "Internal error"; and a failure
classified non-retryable on the first attempt is propagated to the caller
after exactly one remote call with no backoff delay, for both
`generateCompositeImage` and `editGeneratedImage`. -/
theorem retryClassification (mb mm pb pm up ar ib pr key : String)
    (hkey : jsTrim key ≠ "") (envKey : Option String) (e : GenError)
    (hnr : isRetryable e = false)
    (remoteG remoteE : GenRequest → Nat → Except GenError GenResponse)
    (hG : remoteG (compositeRequest mb mm pb pm up ar) 0 = .error e)
    (hE : remoteE (editRequest ib pr ar) 0 = .error e) :
    (∀ e' : GenError, isRetryable e' = true ↔
      (e'.status = some 500 ∨ e'.status = some 503 ∨ e'.code = some 500 ∨
       e'.code = some 503 ∨ "overloaded".toList <:+: e'.message.toList ∨
       "Internal error".toList <:+: e'.message.toList)) ∧
    generateCompositeImage mb mm pb pm up ar (some key) envKey remoteG =
      ⟨.error e, 1, []⟩ ∧
    editGeneratedImage ib pr ar (some key) envKey remoteE = ⟨.error e, 1, []⟩ := by
  refine ⟨?_, ?_, ?_⟩
  · intro e'
    have hnil : ∀ (l : List Char), l <:+: ([] : List Char) → l = [] := by
      rintro l ⟨s, t, h⟩
      exact (List.append_eq_nil.mp (List.append_eq_nil.mp h).1).2
    have h1 : "overloaded".toList <:+: e'.message.toList → e'.message ≠ "" := by
      intro h hm
      rw [hm] at h
      have := hnil _ h
      simp at this
    have h2 : "Internal error".toList <:+: e'.message.toList → e'.message ≠ "" := by
      intro h hm
      rw [hm] at h
      have := hnil _ h
      simp at this
    unfold isRetryable strIncludes
    simp only [Bool.or_eq_true, beq_iff_eq, Bool.and_eq_true, Bool.not_eq_true',
      beq_eq_false_iff_ne, ne_eq, decide_eq_true_eq]
    constructor
    · rintro ((((h | h) | h) | h) | ⟨hm, h | h⟩) <;> tauto
    · rintro (h | h | h | h | h | h) <;> tauto
  · rw [generateCompositeImage_run mb mm pb pm up ar key envKey remoteG hkey]
    exact retryFrom_stop _ 0 4 e (by simp [attemptOutcome, hG]) hnr
  · rw [editGeneratedImage_run ib pr ar key envKey remoteE hkey]
    exact retryFrom_stop _ 0 4 e (by simp [attemptOutcome, hE]) hnr

/-- C2 witness: the theorem applied to a concrete 403-style auth error,
a concrete valid key, and stubs that return that error on attempt 0. -/
theorem retryClassification_w :
    (∀ e' : GenError, isRetryable e' = true ↔
      (e'.status = some 500 ∨ e'.status = some 503 ∨ e'.code = some 500 ∨
       e'.code = some 503 ∨ "overloaded".toList <:+: e'.message.toList ∨
       "Internal error".toList <:+: e'.message.toList)) ∧
    generateCompositeImage "m" "image/jpeg" "p" "image/png" "pose" "1:1" (some "k") none
      (fun _ _ => .error ⟨some 403, none, "auth error 403"⟩) =
      ⟨.error ⟨some 403, none, "auth error 403"⟩, 1, []⟩ ∧
    editGeneratedImage "img" "fix" "1:1" (some "k") none
      (fun _ _ => .error ⟨some 403, none, "auth error 403"⟩) =
      ⟨.error ⟨some 403, none, "auth error 403"⟩, 1, []⟩ :=
  retryClassification "m" "image/jpeg" "p" "image/png" "pose" "1:1" "img" "fix" "k"
    (by decide) none ⟨some 403, none, "auth error 403"⟩ (by decide)
    (fun _ _ => .error ⟨some 403, none, "auth error 403"⟩)
    (fun _ _ => .error ⟨some 403, none, "auth error 403"⟩) rfl rfl

end VirtualStudio

namespace VirtualStudio

/-- C1 counterexample: with a remote stub that returns a structurally
valid response with zero inline-image parts on attempt 0 and a valid
image on attempt 1, neither invocation retries and succeeds; each makes
exactly one remote call, awaits no backoff delay, and terminates with the
no-image error, so the no-image failure does not follow the retry path. -/
theorem noImageRetry_cex :
    generateCompositeImage "m" "image/jpeg" "p" "image/png" "pose" "1:1" (some "k") none
      (fun _ a => if a = 0 then .ok ⟨some [⟨⟨some [Part.text "refusal"]⟩⟩]⟩
        else .ok ⟨some [⟨⟨some [Part.inlineData "QUJD" "image/png"]⟩⟩]⟩) =
      ⟨.error ⟨none, none, "No image data found in the response."⟩, 1, []⟩ ∧
    editGeneratedImage "img" "fix" "1:1" (some "k") none
      (fun _ a => if a = 0 then .ok ⟨some [⟨⟨some [Part.text "refusal"]⟩⟩]⟩
        else .ok ⟨some [⟨⟨some [Part.inlineData "QUJD" "image/png"]⟩⟩]⟩) =
      ⟨.error ⟨none, none, "No image generated during edit."⟩, 1, []⟩ ∧
    (generateCompositeImage "m" "image/jpeg" "p" "image/png" "pose" "1:1" (some "k") none
      (fun _ a => if a = 0 then .ok ⟨some [⟨⟨some [Part.text "refusal"]⟩⟩]⟩
        else .ok ⟨some [⟨⟨some [Part.inlineData "QUJD" "image/png"]⟩⟩]⟩)).result ≠
      .ok "data:image/png;base64,QUJD" := by
  refine ⟨by decide, by decide, by decide⟩

/-- C1 (amended): a structurally valid response containing no inline-image
part yields the no-image error, which is classified NON-retryable (its
message matches none of the retry criteria), so the invocation terminates
immediately after exactly one remote call with no backoff delay — it does
not follow the transient-error retry path — for both
`generateCompositeImage` and `editGeneratedImage`. -/
theorem noImageNotRetried (mb mm pb pm up ar ib pr key : String)
    (hkey : jsTrim key ≠ "") (envKey : Option String)
    (ps : List Part) (hps : firstInlineData ps = none)
    (c : Candidate) (cs : List Candidate)
    (hc : c.content.parts = some ps)
    (resp : GenResponse) (hresp : resp.candidates = some (c :: cs))
    (remoteG remoteE : GenRequest → Nat → Except GenError GenResponse)
    (hG : remoteG (compositeRequest mb mm pb pm up ar) 0 = .ok resp)
    (hE : remoteE (editRequest ib pr ar) 0 = .ok resp) :
    isRetryable ⟨none, none, noImageMsgComposite⟩ = false ∧
    isRetryable ⟨none, none, noImageMsgEdit⟩ = false ∧
    generateCompositeImage mb mm pb pm up ar (some key) envKey remoteG =
      ⟨.error ⟨none, none, noImageMsgComposite⟩, 1, []⟩ ∧
    editGeneratedImage ib pr ar (some key) envKey remoteE =
      ⟨.error ⟨none, none, noImageMsgEdit⟩, 1, []⟩ := by
  refine ⟨by decide, by decide, ?_, ?_⟩
  · rw [generateCompositeImage_run mb mm pb pm up ar key envKey remoteG hkey]
    refine retryFrom_stop _ 0 4 _ ?_ (by decide)
    simp [attemptOutcome, hG, hresp, hc, hps]
  · rw [editGeneratedImage_run ib pr ar key envKey remoteE hkey]
    refine retryFrom_stop _ 0 4 _ ?_ (by decide)
    simp [attemptOutcome, hE, hresp, hc, hps]

/-- C1 witness for the amended theorem: applied to a concrete text-only
response and stubs returning it on attempt 0. -/
theorem noImageNotRetried_w :
    isRetryable ⟨none, none, noImageMsgComposite⟩ = false ∧
    isRetryable ⟨none, none, noImageMsgEdit⟩ = false ∧
    generateCompositeImage "m" "image/jpeg" "p" "image/png" "pose" "1:1" (some "k") none
      (fun _ _ => .ok ⟨some [⟨⟨some [Part.text "refusal"]⟩⟩]⟩) =
      ⟨.error ⟨none, none, noImageMsgComposite⟩, 1, []⟩ ∧
    editGeneratedImage "img" "fix" "1:1" (some "k") none
      (fun _ _ => .ok ⟨some [⟨⟨some [Part.text "refusal"]⟩⟩]⟩) =
      ⟨.error ⟨none, none, noImageMsgEdit⟩, 1, []⟩ :=
  noImageNotRetried "m" "image/jpeg" "p" "image/png" "pose" "1:1" "img" "fix" "k"
    (by decide) none [Part.text "refusal"] rfl ⟨⟨some [Part.text "refusal"]⟩⟩ []
    rfl ⟨some [⟨⟨some [Part.text "refusal"]⟩⟩]⟩ rfl
    (fun _ _ => .ok ⟨some [⟨⟨some [Part.text "refusal"]⟩⟩]⟩)
    (fun _ _ => .ok ⟨some [⟨⟨some [Part.text "refusal"]⟩⟩]⟩) rfl rfl

end VirtualStudio

namespace VirtualStudio

/-- C6: with an explicit credential that is absent, empty, or
whitespace-only after trimming, and no ambient environment key, both
operations fail with the missing-credential error before issuing any
remote call — zero remote calls and no delays. -/
theorem missingCredentialZeroCalls (apiKey : Option String)
    (h : ∀ s, apiKey = some s → jsTrim s = "")
    (mb mm pb pm up ar ib pr : String)
    (remoteG remoteE : GenRequest → Nat → Except GenError GenResponse) :
    generateCompositeImage mb mm pb pm up ar apiKey none remoteG =
      ⟨.error ⟨none, none, missingKeyMsgComposite⟩, 0, []⟩ ∧
    editGeneratedImage ib pr ar apiKey none remoteE =
      ⟨.error ⟨none, none, missingKeyMsgEdit⟩, 0, []⟩ := by
  cases apiKey with
  | none => exact ⟨by simp [generateCompositeImage, jsOrString],
      by simp [editGeneratedImage, jsOrString]⟩
  | some s =>
    have hts := h s rfl
    by_cases hs : s = ""
    · subst hs
      exact ⟨by simp [generateCompositeImage, jsOrString],
        by simp [editGeneratedImage, jsOrString]⟩
    · exact ⟨by simp [generateCompositeImage, jsOrString, hs, hts],
        by simp [editGeneratedImage, jsOrString, hs, hts]⟩

/-- C6 witness: a whitespace-only explicit credential with no environment
key makes zero remote calls in both operations. -/
theorem missingCredentialZeroCalls_w :
    generateCompositeImage "m" "image/jpeg" "p" "image/png" "pose" "1:1" (some "   ") none
      (fun _ _ => .error ⟨some 500, none, "never reached"⟩) =
      ⟨.error ⟨none, none, missingKeyMsgComposite⟩, 0, []⟩ ∧
    editGeneratedImage "img" "fix" "1:1" (some "   ") none
      (fun _ _ => .error ⟨some 500, none, "never reached"⟩) =
      ⟨.error ⟨none, none, missingKeyMsgEdit⟩, 0, []⟩ :=
  missingCredentialZeroCalls (some "   ") (fun s hs => by cases hs; decide)
    "m" "image/jpeg" "p" "image/png" "pose" "1:1" "img" "fix"
    (fun _ _ => .error ⟨some 500, none, "never reached"⟩)
    (fun _ _ => .error ⟨some 500, none, "never reached"⟩)

/-- C9: the credential fallback is asymmetric — an explicitly supplied
whitespace-only credential wins the JS `||` fallback (it is truthy) and
then trims to empty, so the invocation fails with the missing-credential
error and zero remote calls even when an environment key is available;
whereas an explicitly supplied empty string loses the fallback to the
environment key and, when that key trims nonempty, the invocation
proceeds to make at least one remote call. -/
theorem credentialFallbackAsymmetry (s : String) (hs : s ≠ "")
    (hst : jsTrim s = "") (envKey : Option String) (k : String)
    (hk : jsTrim k ≠ "") (mb mm pb pm up ar ib pr : String)
    (remoteG remoteE remoteG2 remoteE2 : GenRequest → Nat → Except GenError GenResponse) :
    generateCompositeImage mb mm pb pm up ar (some s) envKey remoteG =
      ⟨.error ⟨none, none, missingKeyMsgComposite⟩, 0, []⟩ ∧
    editGeneratedImage ib pr ar (some s) envKey remoteE =
      ⟨.error ⟨none, none, missingKeyMsgEdit⟩, 0, []⟩ ∧
    0 < (generateCompositeImage mb mm pb pm up ar (some "") (some k) remoteG2).calls ∧
    0 < (editGeneratedImage ib pr ar (some "") (some k) remoteE2).calls := by
  refine ⟨by simp [generateCompositeImage, jsOrString, hs, hst],
    by simp [editGeneratedImage, jsOrString, hs, hst], ?_, ?_⟩
  · have : generateCompositeImage mb mm pb pm up ar (some "") (some k) remoteG2 =
        retryFrom (fun a => attemptOutcome noImageMsgComposite
          (remoteG2 (compositeRequest mb mm pb pm up ar) a)) 0 5 := by
      simp [generateCompositeImage, jsOrString, hk]
    rw [this]
    exact retryFrom_calls_pos _ 0 4
  · have : editGeneratedImage ib pr ar (some "") (some k) remoteE2 =
        retryFrom (fun a => attemptOutcome noImageMsgEdit
          (remoteE2 (editRequest ib pr ar) a)) 0 5 := by
      simp [editGeneratedImage, jsOrString, hk]
    rw [this]
    exact retryFrom_calls_pos _ 0 4

/-- C9 witness: the theorem applied to the whitespace credential " ", the
environment key "ENVKEY", and concrete always-failing remote stubs. -/
theorem credentialFallbackAsymmetry_w :
    generateCompositeImage "m" "image/jpeg" "p" "image/png" "pose" "1:1" (some " ")
      (some "ENVKEY") (fun _ _ => .error ⟨some 500, none, "boom"⟩) =
      ⟨.error ⟨none, none, missingKeyMsgComposite⟩, 0, []⟩ ∧
    editGeneratedImage "img" "fix" "1:1" (some " ") (some "ENVKEY")
      (fun _ _ => .error ⟨some 500, none, "boom"⟩) =
      ⟨.error ⟨none, none, missingKeyMsgEdit⟩, 0, []⟩ ∧
    0 < (generateCompositeImage "m" "image/jpeg" "p" "image/png" "pose" "1:1" (some "")
      (some "ENVKEY") (fun _ _ => .error ⟨some 500, none, "boom"⟩)).calls ∧
    0 < (editGeneratedImage "img" "fix" "1:1" (some "") (some "ENVKEY")
      (fun _ _ => .error ⟨some 500, none, "boom"⟩)).calls :=
  credentialFallbackAsymmetry " " (by decide) (by decide) (some "ENVKEY") "ENVKEY"
    (by decide) "m" "image/jpeg" "p" "image/png" "pose" "1:1" "img" "fix"
    (fun _ _ => .error ⟨some 500, none, "boom"⟩)
    (fun _ _ => .error ⟨some 500, none, "boom"⟩)
    (fun _ _ => .error ⟨some 500, none, "boom"⟩)
    (fun _ _ => .error ⟨some 500, none, "boom"⟩)

/-- C10: the edit request always tags its submitted inline-image part
with media type "image/png", whatever the caller supplied: every
inline-data part of the edit request carries mimeType "image/png", and
the input image is indeed present as such a part. -/
theorem editPartsPngOnly (ib pr ar : String) :
    (∀ d m, Part.inlineData d m ∈ (editRequest ib pr ar).parts → m = "image/png") ∧
    Part.inlineData ib "image/png" ∈ (editRequest ib pr ar).parts ∧
    (editRequest ib pr ar).parts = editParts ib pr := by
  refine ⟨?_, ?_, rfl⟩
  · intro d m hm
    simp [editRequest, editParts] at hm
    exact hm.2
  · simp [editRequest, editParts]

/-- C10 witness: the theorem applied to a concrete edit request, with the
membership hypothesis discharged at the request's own image part. -/
theorem editPartsPngOnly_w :
    "image/png" = "image/png" ∧
    Part.inlineData "QUJD" "image/png" ∈ (editRequest "QUJD" "sharpen" "1:1").parts :=
  ⟨(editPartsPngOnly "QUJD" "sharpen" "1:1").1 "QUJD" "image/png"
      (editPartsPngOnly "QUJD" "sharpen" "1:1").2.1,
    (editPartsPngOnly "QUJD" "sharpen" "1:1").2.1⟩

end VirtualStudio

namespace VirtualStudio

/-- C3: after a retryable failure at 0-based attempt `a` with attempts
remaining, the next wait is exactly `2^(a+1)` seconds (`2^(a+1) * 1000`
ms); with the attempt ceiling 5 and every attempt failing retryably, the
awaited delays of one invocation are exactly 2s, 4s, 8s, 16s — cumulative
30 seconds — and there is no delay after the final attempt (one fewer
delay than calls), for both exported operations. -/
theorem backoffSchedule (step : Nat → Except GenError String) (e : GenError)
    (a k : Nat) (hs1 : step a = .error e) (hr1 : isRetryable e = true)
    (hk : k ≠ 0) (mb mm pb pm up ar ib pr key : String)
    (hkey : jsTrim key ≠ "") (envKey : Option String)
    (errG errE : Nat → GenError)
    (hrG : ∀ n, isRetryable (errG n) = true)
    (hrE : ∀ n, isRetryable (errE n) = true)
    (remoteG remoteE : GenRequest → Nat → Except GenError GenResponse)
    (hremG : ∀ n, remoteG (compositeRequest mb mm pb pm up ar) n = .error (errG n))
    (hremE : ∀ n, remoteE (editRequest ib pr ar) n = .error (errE n)) :
    (retryFrom step a (k + 1)).delaysMs.head? = some (2 ^ (a + 1) * 1000) ∧
    (generateCompositeImage mb mm pb pm up ar (some key) envKey remoteG).delaysMs =
      [2000, 4000, 8000, 16000] ∧
    (editGeneratedImage ib pr ar (some key) envKey remoteE).delaysMs =
      [2000, 4000, 8000, 16000] ∧
    ([2000, 4000, 8000, 16000] : List Nat).sum = 30000 ∧
    (generateCompositeImage mb mm pb pm up ar (some key) envKey remoteG).calls =
      (generateCompositeImage mb mm pb pm up ar (some key) envKey remoteG).delaysMs.length
        + 1 := by
  refine ⟨?_, ?_, ?_, by decide, ?_⟩
  · rw [retryFrom_retry step a k e hs1 hr1 hk]
    rfl
  · rw [generateCompositeImage_run mb mm pb pm up ar key envKey remoteG hkey]
    simp [retryFrom, attemptOutcome, hremG, hrG]
  · rw [editGeneratedImage_run ib pr ar key envKey remoteE hkey]
    simp [retryFrom, attemptOutcome, hremE, hrE]
  · rw [generateCompositeImage_run mb mm pb pm up ar key envKey remoteG hkey]
    simp [retryFrom, attemptOutcome, hremG, hrG]

/-- C3 witness: the theorem applied to concrete 503-overload stubs that
fail every attempt. -/
theorem backoffSchedule_w :
    (retryFrom (fun _ => .error ⟨some 503, none, ""⟩) 0 2).delaysMs.head? =
      some (2 ^ (0 + 1) * 1000) ∧
    (generateCompositeImage "m" "image/jpeg" "p" "image/png" "pose" "1:1" (some "k") none
      (fun _ _ => .error ⟨some 500, none, ""⟩)).delaysMs = [2000, 4000, 8000, 16000] ∧
    (editGeneratedImage "img" "fix" "1:1" (some "k") none
      (fun _ _ => .error ⟨some 500, none, ""⟩)).delaysMs = [2000, 4000, 8000, 16000] ∧
    ([2000, 4000, 8000, 16000] : List Nat).sum = 30000 ∧
    (generateCompositeImage "m" "image/jpeg" "p" "image/png" "pose" "1:1" (some "k") none
      (fun _ _ => .error ⟨some 500, none, ""⟩)).calls =
      (generateCompositeImage "m" "image/jpeg" "p" "image/png" "pose" "1:1" (some "k") none
        (fun _ _ => .error ⟨some 500, none, ""⟩)).delaysMs.length + 1 :=
  backoffSchedule (fun _ => .error ⟨some 503, none, ""⟩) ⟨some 503, none, ""⟩ 0 1
    rfl (by decide) (by decide) "m" "image/jpeg" "p" "image/png" "pose" "1:1" "img" "fix"
    "k" (by decide) none (fun _ => ⟨some 500, none, ""⟩) (fun _ => ⟨some 500, none, ""⟩)
    (by intro n; show isRetryable ⟨some 500, none, ""⟩ = true; decide)
    (by intro n; show isRetryable ⟨some 500, none, ""⟩ = true; decide)
    (fun _ _ => .error ⟨some 500, none, ""⟩) (fun _ _ => .error ⟨some 500, none, ""⟩)
    (fun _ => rfl) (fun _ => rfl)

/-- C4: the retry loop never makes more than its fuel in calls; when every
attempt fails with a retryable error it makes exactly its fuel in calls
and terminates with the error of the final attempt, unmodified; in
particular with the configured ceiling 5, both exported operations make
exactly 5 remote calls and propagate the 5th attempt's error verbatim. -/
theorem exhaustionPropagates (stepAny step : Nat → Except GenError String)
    (n b a k : Nat) (err : Nat → GenError)
    (hs : ∀ i, step i = .error (err i)) (hr : ∀ i, isRetryable (err i) = true)
    (mb mm pb pm up ar ib pr key : String) (hkey : jsTrim key ≠ "")
    (envKey : Option String) (errG errE : Nat → GenError)
    (hrG : ∀ i, isRetryable (errG i) = true)
    (hrE : ∀ i, isRetryable (errE i) = true)
    (remoteG remoteE : GenRequest → Nat → Except GenError GenResponse)
    (hremG : ∀ i, remoteG (compositeRequest mb mm pb pm up ar) i = .error (errG i))
    (hremE : ∀ i, remoteE (editRequest ib pr ar) i = .error (errE i)) :
    (retryFrom stepAny b n).calls ≤ n ∧
    (retryFrom step a (k + 1)).calls = k + 1 ∧
    (retryFrom step a (k + 1)).result = .error (err (a + k)) ∧
    (generateCompositeImage mb mm pb pm up ar (some key) envKey remoteG).calls = 5 ∧
    (generateCompositeImage mb mm pb pm up ar (some key) envKey remoteG).result =
      .error (errG 4) ∧
    (editGeneratedImage ib pr ar (some key) envKey remoteE).calls = 5 ∧
    (editGeneratedImage ib pr ar (some key) envKey remoteE).result = .error (errE 4) := by
  have hsG : ∀ i, (fun j => attemptOutcome noImageMsgComposite
      (remoteG (compositeRequest mb mm pb pm up ar) j)) i = .error (errG i) := by
    intro i
    simp [attemptOutcome, hremG i]
  have hsE : ∀ i, (fun j => attemptOutcome noImageMsgEdit
      (remoteE (editRequest ib pr ar) j)) i = .error (errE i) := by
    intro i
    simp [attemptOutcome, hremE i]
  refine ⟨retryFrom_calls_le stepAny n b, (retryFrom_allFail step err hs hr k a).1,
    (retryFrom_allFail step err hs hr k a).2, ?_, ?_, ?_, ?_⟩
  · rw [generateCompositeImage_run mb mm pb pm up ar key envKey remoteG hkey]
    exact (retryFrom_allFail _ errG hsG hrG 4 0).1
  · rw [generateCompositeImage_run mb mm pb pm up ar key envKey remoteG hkey]
    exact (retryFrom_allFail _ errG hsG hrG 4 0).2
  · rw [editGeneratedImage_run ib pr ar key envKey remoteE hkey]
    exact (retryFrom_allFail _ errE hsE hrE 4 0).1
  · rw [editGeneratedImage_run ib pr ar key envKey remoteE hkey]
    exact (retryFrom_allFail _ errE hsE hrE 4 0).2

/-- C4 witness: the theorem applied to concrete stubs failing every
attempt with distinct retryable errors, so the propagated error is
visibly the final attempt's. -/
theorem exhaustionPropagates_w :
    (retryFrom (fun _ => .ok "x") 0 3).calls ≤ 3 ∧
    (retryFrom (fun i => .error ⟨some 500, none, toString i⟩) 0 (2 + 1)).calls = 2 + 1 ∧
    (retryFrom (fun i => .error ⟨some 500, none, toString i⟩) 0 (2 + 1)).result =
      .error ⟨some 500, none, toString (0 + 2)⟩ ∧
    (generateCompositeImage "m" "image/jpeg" "p" "image/png" "pose" "1:1" (some "k") none
      (fun _ i => .error ⟨some 503, none, toString i⟩)).calls = 5 ∧
    (generateCompositeImage "m" "image/jpeg" "p" "image/png" "pose" "1:1" (some "k") none
      (fun _ i => .error ⟨some 503, none, toString i⟩)).result =
      .error ⟨some 503, none, toString 4⟩ ∧
    (editGeneratedImage "img" "fix" "1:1" (some "k") none
      (fun _ i => .error ⟨some 503, none, toString i⟩)).calls = 5 ∧
    (editGeneratedImage "img" "fix" "1:1" (some "k") none
      (fun _ i => .error ⟨some 503, none, toString i⟩)).result =
      .error ⟨some 503, none, toString 4⟩ :=
  exhaustionPropagates (fun _ => .ok "x") (fun i => .error ⟨some 500, none, toString i⟩)
    3 0 0 2 (fun i => ⟨some 500, none, toString i⟩) (fun _ => rfl)
    (by intro i; simp [isRetryable])
    "m" "image/jpeg" "p" "image/png" "pose" "1:1" "img" "fix" "k" (by decide) none
    (fun i => ⟨some 503, none, toString i⟩) (fun i => ⟨some 503, none, toString i⟩)
    (by intro i; simp [isRetryable]) (by intro i; simp [isRetryable])
    (fun _ i => .error ⟨some 503, none, toString i⟩)
    (fun _ i => .error ⟨some 503, none, toString i⟩) (fun _ => rfl) (fun _ => rfl)

end VirtualStudio

namespace VirtualStudio

/-- C5: a successful attempt returns immediately (one call, no delays,
regardless of remaining attempts); and when the response's ordered part
sequence has a first part carrying (nonempty) inline image data — any
earlier parts being text or empty-data inline parts — the invocation
returns that FIRST part's data wrapped as `data:image/png;base64,`
whatever media type `m` the remote declared for it, after exactly one
remote call, for both exported operations. -/
theorem firstImageExtraction (stepAny : Nat → Except GenError String)
    (a k : Nat) (img : String) (hstep : stepAny a = .ok img)
    (pre rest : List Part)
    (hpre : ∀ p ∈ pre, ∀ d' m', p = Part.inlineData d' m' → d' = "")
    (d m : String) (hd : d ≠ "") (c : Candidate) (cs : List Candidate)
    (hc : c.content.parts = some (pre ++ Part.inlineData d m :: rest))
    (resp : GenResponse) (hresp : resp.candidates = some (c :: cs))
    (mb mm pb pm up ar ib pr key : String) (hkey : jsTrim key ≠ "")
    (envKey : Option String)
    (remoteG remoteE : GenRequest → Nat → Except GenError GenResponse)
    (hG : remoteG (compositeRequest mb mm pb pm up ar) 0 = .ok resp)
    (hE : remoteE (editRequest ib pr ar) 0 = .ok resp) :
    retryFrom stepAny a (k + 1) = ⟨.ok img, 1, []⟩ ∧
    firstInlineData (pre ++ Part.inlineData d m :: rest) = some d ∧
    generateCompositeImage mb mm pb pm up ar (some key) envKey remoteG =
      ⟨.ok ("data:image/png;base64," ++ d), 1, []⟩ ∧
    editGeneratedImage ib pr ar (some key) envKey remoteE =
      ⟨.ok ("data:image/png;base64," ++ d), 1, []⟩ := by
  have hfirst := firstInlineData_append pre rest d m hpre hd
  refine ⟨retryFrom_ok stepAny a k img hstep, hfirst, ?_, ?_⟩
  · rw [generateCompositeImage_run mb mm pb pm up ar key envKey remoteG hkey]
    refine retryFrom_ok _ 0 4 _ ?_
    simp [attemptOutcome, hG, hresp, hc, hfirst]
  · rw [editGeneratedImage_run ib pr ar key envKey remoteE hkey]
    refine retryFrom_ok _ 0 4 _ ?_
    simp [attemptOutcome, hE, hresp, hc, hfirst]

/-- C5 witness: a response whose parts are a text part, an empty-data
inline part, a JPEG-typed inline part with data "QUJD", and a further
PNG-typed inline part; the extracted artifact is the first nonempty
inline data, PNG-wrapped despite the declared JPEG type. -/
theorem firstImageExtraction_w :
    retryFrom (fun _ => .ok "done") 3 (0 + 1) = ⟨.ok "done", 1, []⟩ ∧
    firstInlineData ([Part.text "note", Part.inlineData "" "image/gif"] ++
      Part.inlineData "QUJD" "image/jpeg" :: [Part.inlineData "WFla" "image/png"]) =
      some "QUJD" ∧
    generateCompositeImage "m" "image/jpeg" "p" "image/png" "pose" "1:1" (some "k") none
      (fun _ _ => .ok ⟨some [⟨⟨some [Part.text "note", Part.inlineData "" "image/gif",
        Part.inlineData "QUJD" "image/jpeg", Part.inlineData "WFla" "image/png"]⟩⟩]⟩) =
      ⟨.ok ("data:image/png;base64," ++ "QUJD"), 1, []⟩ ∧
    editGeneratedImage "img" "fix" "1:1" (some "k") none
      (fun _ _ => .ok ⟨some [⟨⟨some [Part.text "note", Part.inlineData "" "image/gif",
        Part.inlineData "QUJD" "image/jpeg", Part.inlineData "WFla" "image/png"]⟩⟩]⟩) =
      ⟨.ok ("data:image/png;base64," ++ "QUJD"), 1, []⟩ :=
  firstImageExtraction (fun _ => .ok "done") 3 0 "done" rfl
    [Part.text "note", Part.inlineData "" "image/gif"]
    [Part.inlineData "WFla" "image/png"]
    (by
      intro p hp d' m' he
      simp only [List.mem_cons, List.not_mem_nil, or_false] at hp
      rcases hp with h | h
      · rw [h] at he
        exact absurd he (by simp)
      · rw [h] at he
        injection he with h1 h2
        exact h1.symm)
    "QUJD" "image/jpeg" (by decide)
    ⟨⟨some [Part.text "note", Part.inlineData "" "image/gif",
      Part.inlineData "QUJD" "image/jpeg", Part.inlineData "WFla" "image/png"]⟩⟩ []
    rfl
    ⟨some [⟨⟨some [Part.text "note", Part.inlineData "" "image/gif",
      Part.inlineData "QUJD" "image/jpeg", Part.inlineData "WFla" "image/png"]⟩⟩]⟩ rfl
    "m" "image/jpeg" "p" "image/png" "pose" "1:1" "img" "fix" "k" (by decide) none
    (fun _ _ => .ok ⟨some [⟨⟨some [Part.text "note", Part.inlineData "" "image/gif",
      Part.inlineData "QUJD" "image/jpeg", Part.inlineData "WFla" "image/png"]⟩⟩]⟩)
    (fun _ _ => .ok ⟨some [⟨⟨some [Part.text "note", Part.inlineData "" "image/gif",
      Part.inlineData "QUJD" "image/jpeg", Part.inlineData "WFla" "image/png"]⟩⟩]⟩)
    rfl rfl

/-- C7: for every input, the composite request's parts sequence has
exactly five parts, in order: the model-image label text, the model image
asset, the product-image label text, the product image asset, and a
trailing command text that contains the instruction string verbatim and
the fixed fidelity directive as its appended tail; and these are exactly
the parts the request carries. -/
theorem compositePartsOrdering (mb mm pb pm up ar : String) :
    (compositeParts mb mm pb pm up).length = 5 ∧
    (compositeParts mb mm pb pm up)[0]? =
      some (Part.text "Model Reference (Target Person):") ∧
    (compositeParts mb mm pb pm up)[1]? = some (Part.inlineData mb mm) ∧
    (compositeParts mb mm pb pm up)[2]? =
      some (Part.text "Product Reference (DO NOT ALTER TEXT OR LOGOS):") ∧
    (compositeParts mb mm pb pm up)[3]? = some (Part.inlineData pb pm) ∧
    (compositeParts mb mm pb pm up)[4]? =
      some (Part.text ("Composition Instructions: " ++ up ++ fidelitySuffix)) ∧
    strIncludes ("Composition Instructions: " ++ up ++ fidelitySuffix) up = true ∧
    strIncludes ("Composition Instructions: " ++ up ++ fidelitySuffix)
      fidelitySuffix = true ∧
    (compositeRequest mb mm pb pm up ar).parts = compositeParts mb mm pb pm up := by
  refine ⟨rfl, rfl, rfl, rfl, rfl, rfl, strIncludes_append _ _ _, ?_, rfl⟩
  unfold strIncludes
  rw [decide_eq_true_eq]
  refine ⟨("Composition Instructions: " ++ up).toList, [], ?_⟩
  simp

set_option maxRecDepth 4000 in
/-- C8 counterexample: with an empty instruction the builder emits the
trailing command text with the empty instruction embedded verbatim (note
the double space), and that text does not contain the claimed default
instruction "natural studio pose". -/
theorem builderDefault_cex :
    (compositeParts "m" "image/png" "p" "image/png" "")[4]? =
      some (Part.text
        "Composition Instructions:  --ensure product text is legible and exact.") ∧
    strIncludes "Composition Instructions:  --ensure product text is legible and exact."
      "natural studio pose" = false := by
  exact ⟨by decide, by decide⟩

/-- C8 (amended): the request builder performs no substitution — the
trailing command text embeds the instruction verbatim, even when it is
empty; the defaulting lives in the App caller (`handleGenerate`), which
replaces a prompt that trims to empty with the default instruction
"Model wearing the product naturally in a professional studio setting."
(and otherwise passes the trimmed prompt), so the prompt handed to the
builder through the app path is never empty. -/
theorem builderNoDefault (mb mm pb pm up p : String) :
    (compositeParts mb mm pb pm up)[4]? =
      some (Part.text ("Composition Instructions: " ++ up ++ fidelitySuffix)) ∧
    finalPrompt p ≠ "" ∧
    (jsTrim p = "" → finalPrompt p =
      "Model wearing the product naturally in a professional studio setting.") ∧
    (jsTrim p ≠ "" → finalPrompt p = jsTrim p) := by
  refine ⟨rfl, ?_, ?_, ?_⟩
  · by_cases hp : jsTrim p = ""
    · unfold finalPrompt
      rw [if_pos hp]
      decide
    · unfold finalPrompt
      rw [if_neg hp]
      exact hp
  · intro hp
    unfold finalPrompt
    rw [if_pos hp]
  · intro hp
    unfold finalPrompt
    rw [if_neg hp]

/-- C8 witness for the amended theorem: a whitespace-only prompt is
defaulted by the caller, a nonblank prompt is passed trimmed, and the
builder embeds a concrete instruction verbatim. -/
theorem builderNoDefault_w :
    (compositeParts "m" "image/png" "p" "image/png" "x")[4]? =
      some (Part.text ("Composition Instructions: " ++ "x" ++ fidelitySuffix)) ∧
    finalPrompt "   " ≠ "" ∧
    finalPrompt "   " =
      "Model wearing the product naturally in a professional studio setting." ∧
    finalPrompt " go " = jsTrim " go " :=
  ⟨(builderNoDefault "m" "image/png" "p" "image/png" "x" "   ").1,
    (builderNoDefault "m" "image/png" "p" "image/png" "x" "   ").2.1,
    (builderNoDefault "m" "image/png" "p" "image/png" "x" "   ").2.2.1 (by decide),
    (builderNoDefault "m" "image/png" "p" "image/png" "x" " go ").2.2.2 (by decide)⟩

end VirtualStudio
